import Mathlib

/-!
# Verification of the ko-nexus auto-wiring container core

Shallow embedding of `src/ko_nexus/containers.py` and `src/ko_nexus/lifetimes.py`
(the registry + resolver + lifetime-strategy + validator + lifecycle-manager
subsystem) and proofs about the claims of the specification.

Modelling conventions:
* Python type identity is modelled by the type's name (`Iface := String`);
  error messages use the same string for `__name__`.
* Python object identity is modelled by `Value.obj id` with a fresh-id counter;
  the Python value `None` is `Value.pyNone`.
* Mutable `RegistrationMetadata` objects are stored in a heap
  (`ContainerState.heap`), indexed by their allocation order, so a record id is
  also the registration order of the record. `NamedRegistrations` stores record
  ids. `id(metadata.resolved_params)` (the scope key used by `ScopedStrategy`)
  is modelled by the record id `rpId`, which is likewise unique per record.
* Python `dict` iteration order (insertion order, with in-place overwrite) is
  modelled by association lists updated in place.
-/

set_option autoImplicit false

namespace KoNexus

/-- Identity of a Python class (its `__name__` doubles as its identity here). -/
abbrev Iface := String

/-- A Python runtime value: an identified object, or the value `None`. -/
inductive Value where
  | obj (id : Nat)
  | pyNone
deriving DecidableEq

/-- `Lifetime` literal type of `lifetimes.py`. -/
inductive Lifetime where
  | singleton
  | transient
  | scoped
deriving DecidableEq

/-- A constructor-parameter type annotation, as the resolver's introspection
sees it: either a bare class, or a PEP-604 union that contains `None`
(`unionNone ts` models `t1 | ... | None` with `ts` the non-`None` members,
possibly empty). -/
inductive Annot where
  | plain (t : Iface)
  | unionNone (ts : List Iface)
deriving DecidableEq

/-- One constructor parameter: its name, its type hint (`none` when the
parameter carries no annotation) and its declared default value (`none` models
`inspect.Parameter.empty`). -/
structure Param where
  name : String
  annot : Option Annot
  default : Option Value
deriving DecidableEq

/-- What calling the factory does once its arguments are resolved:
`ctor` allocates a fresh object (a class or a factory returning a new object);
`constVal v` returns the fixed value `v` (e.g. the `lambda: instance` closure
installed by `register_instance`, or a factory returning `None`). -/
inductive FactoryKind where
  | ctor
  | constVal (v : Value)
deriving DecidableEq

/-- A factory/constructible reference: its introspectable parameter list and
its behaviour when invoked. -/
structure Factory where
  params : List Param
  kind : FactoryKind
deriving DecidableEq

/-- A user cleanup callback: whether it is a coroutine function, and whether
invoking it raises (`raises = some m` models an exception whose `str` is `m`). -/
structure Cleanup where
  isAsync : Bool
  raises : Option String
deriving DecidableEq

/-- `RegistrationMetadata` of `lifetimes.py`.  The Python field `instance`
(named `inst` here, `instance` being a Lean keyword) holds `None` until a
singleton construction stores a value; `rpId` models
`id(self.resolved_params)`, the per-record dict identity used as the scoped
cache key.  The `resolved_params` dict itself is never written by the code, so
only its identity is modelled. -/
structure RegistrationMetadata where
  lifetime : Lifetime
  factory : Factory
  cleanup : Option Cleanup
  inst : Value
  is_async : Bool
  rpId : Nat
deriving DecidableEq

/-- `NamedRegistrations` of `lifetimes.py`: one optional default record plus a
name-to-record mapping (insertion-ordered, like a Python dict).  The mapping
stores record ids into the container's heap. -/
structure NamedRegistrations where
  default : Option Nat
  named : List (String × Nat)
deriving DecidableEq

/-- `NamedRegistrations.get`: the default record for `none`, the named record
otherwise. -/
def NamedRegistrations.get (nr : NamedRegistrations) (name : Option String) : Option Nat :=
  match name with
  | none => nr.default
  | some n => nr.named.lookup n

/-- `NamedRegistrations.has`: whether a registration exists for the name. -/
def NamedRegistrations.has (nr : NamedRegistrations) (name : Option String) : Bool :=
  (nr.get name).isSome

/-- In-place update of an insertion-ordered association list: overwriting an
existing key keeps its position (Python dict semantics), a new key is appended. -/
def assocSet (l : List (String × Nat)) (k : String) (v : Nat) : List (String × Nat) :=
  match l with
  | [] => [(k, v)]
  | (k₀, v₀) :: rest => if k₀ = k then (k, v) :: rest else (k₀, v₀) :: assocSet rest k v

/-- `NamedRegistrations.set`: store a record id under the name (or as default). -/
def NamedRegistrations.set (nr : NamedRegistrations) (recId : Nat) (name : Option String) :
    NamedRegistrations :=
  match name with
  | none => { nr with default := some recId }
  | some n => { nr with named := assocSet nr.named n recId }

/-- `NamedRegistrations.all_metadata`: the default record (if any) followed by
the named records in insertion order. -/
def NamedRegistrations.all_metadata (nr : NamedRegistrations) : List Nat :=
  (match nr.default with | some i => [i] | none => []) ++ nr.named.map Prod.snd

/-- The error taxonomy relevant to the claims.  The concrete exception classes
`DiResolutionError`, `DiCircularDependencyError`, `DiValidationError` and the
base `_BaseException` machinery appending an error code to `str(exc)` are
imported by `containers.py` from `ko_nexus.exceptions`; the subclasses are not
present in the snapshot, so an error here is just its kind together with the
message built at the raise site in `containers.py`.  `attributeError` models a
Python `AttributeError` (an ordinary `Exception`, not part of the library's
taxonomy). `recursionError` models Python's recursion limit (used as the
out-of-fuel result of the validator's recursion; see `_validate_type`). -/
inductive DiErr where
  | resolutionError (msg : String)
  | circularDependencyError (msg : String)
  | validationError (msg : String)
  | callableError (msg : String)
  | attributeError (msg : String)
  | recursionError (msg : String)
deriving DecidableEq

/-- The message carried by an error. -/
def DiErr.msg : DiErr → String
  | .resolutionError m => m
  | .circularDependencyError m => m
  | .validationError m => m
  | .callableError m => m
  | .attributeError m => m
  | .recursionError m => m

/-- A key of the resolution stack / visited set: `(interface, name)`. -/
abbrev StackKey := Iface × Option String

/-- The mutable state of one `Container`: the registry (insertion-ordered,
keyed by interface), the heap of `RegistrationMetadata` records (index =
record id = registration order), the `ScopedStrategy._scoped_instances` map,
the resolution stack, and the fresh-object counter. -/
structure ContainerState where
  registry : List (Iface × NamedRegistrations)
  heap : List RegistrationMetadata
  scopedInstances : List (Nat × Value)
  stack : List StackKey
  nextObj : Nat
deriving DecidableEq

/-- `Container.__init__`: empty registry, empty scoped cache, empty stack. -/
def emptyContainer : ContainerState :=
  { registry := [], heap := [], scopedInstances := [], stack := [], nextObj := 0 }

/-- Python `dict` lookup on the registry (keys are unique by construction). -/
def lookupIface (reg : List (Iface × NamedRegistrations)) (i : Iface) :
    Option NamedRegistrations :=
  match reg with
  | [] => none
  | (j, nr) :: rest => if j = i then some nr else lookupIface rest i

/-- Replace the `NamedRegistrations` stored under `i` (which must exist),
keeping the dict position. -/
def updateIface (reg : List (Iface × NamedRegistrations)) (i : Iface)
    (nr : NamedRegistrations) : List (Iface × NamedRegistrations) :=
  match reg with
  | [] => []
  | (j, nr₀) :: rest =>
    if j = i then (j, nr) :: rest else (j, nr₀) :: updateIface rest i nr

/-- `Container._set_in_registry`: create the `NamedRegistrations` holder on
first use of the interface (appended, preserving dict insertion order), then
`set` the record under the name. -/
def _set_in_registry (s : ContainerState) (iface : Iface) (md : RegistrationMetadata)
    (name : Option String) : ContainerState :=
  let recId := s.heap.length
  let s' := { s with heap := s.heap ++ [md] }
  match lookupIface s'.registry iface with
  | none =>
    { s' with registry :=
        s'.registry ++ [(iface, NamedRegistrations.set ⟨none, []⟩ recId name)] }
  | some nr =>
    { s' with registry := updateIface s'.registry iface (nr.set recId name) }

/-- `Container.register`: build a `RegistrationMetadata` (cached-instance slot
`None`) and store it.  `rpId` is the identity of the record's fresh
`resolved_params` dict, modelled by the record id. -/
def register (s : ContainerState) (iface : Iface) (factory : Factory)
    (name : Option String) (cleanup : Option Cleanup) (lifetime : Lifetime)
    (is_async : Bool) : ContainerState :=
  _set_in_registry s iface
    { lifetime := lifetime, factory := factory, cleanup := cleanup,
      inst := Value.pyNone, is_async := is_async, rpId := s.heap.length } name

/-- `Container.register_instance`: always singleton, factory `lambda: instance`,
no cleanup, cached-instance slot pre-populated with the instance. -/
def register_instance (s : ContainerState) (iface : Iface) (v : Value)
    (name : Option String) : ContainerState :=
  _set_in_registry s iface
    { lifetime := Lifetime.singleton, factory := ⟨[], FactoryKind.constVal v⟩,
      cleanup := none, inst := v, is_async := false, rpId := s.heap.length } name

/-- `str()` of a value, as used in f-strings of `containers.py`.  Python would
print a class-and-address form for objects; only injectivity per identity
matters to the claims, so an abstract rendering is used. -/
def pyStr (v : Value) : String :=
  match v with
  | Value.obj n => "<obj " ++ toString n ++ ">"
  | Value.pyNone => "None"

/-- The `name_str` fragment of the not-registered message:
`f" with name \x7bname\x7d" if name else ""` (empty for `None` and for the
falsy empty string). -/
def nameStr (name : Option String) : String :=
  match name with
  | none => ""
  | some n => if n = "" then "" else " with name `" ++ n ++ "`"

/-- Display of one resolution-stack key: `f"\x7bt.__name__\x7d(\x7bn or 'default'\x7d)"`. -/
def keyDisplay (k : StackKey) : String :=
  k.1 ++ "(" ++ (match k.2 with
    | none => "default"
    | some n => if n = "" then "default" else n) ++ ")"

/-- The circular-dependency message of `Container.resolve`: the joined chain of
the current resolution stack followed by the offending key. -/
def cycleMsg (stack : List StackKey) (iface : Iface) (name : Option String) : String :=
  "Circular dependency detected: `" ++
    String.intercalate " -> " (stack.map keyDisplay) ++ " -> " ++
    keyDisplay (iface, name) ++ "`"

/-- The `f"Interface type ... is not registered"` message (without name). -/
def notRegisteredMsg (iface : Iface) : String :=
  "Interface type `" ++ iface ++ "` is not registered"

/-- The `f"Interface type ... is not registered"` message (with `name_str`). -/
def notRegisteredNamedMsg (iface : Iface) (name : Option String) : String :=
  "Interface type `" ++ iface ++ "`" ++ nameStr name ++ " is not registered"

/-- Message of the `AttributeError` described at `Container.resolve`; see the
comment there. -/
def attrErrMsg : String :=
  "AttributeError: NamedRegistrations object has no attribute lifetime"

/-- `Container.resolve` (containers.py lines 251-295), translated line by line:

1. `interface not in self._registry` raises `DiResolutionError` (not
   registered).
2. `not self._registry[interface].has(name)` raises `DiResolutionError`
   (with `name_str`).
3. `stack_key in self._resolution_stack` raises `DiCircularDependencyError`
   with the joined chain.
4. The key is pushed.  Then line 286 binds
   `metadata: RegistrationMetadata = self._registry[interface]` - this is the
   whole `NamedRegistrations` holder, the `.get(name)` projection is missing -
   so line 287, `self._strategies[metadata.lifetime]`, performs the attribute
   access `metadata.lifetime` on a `NamedRegistrations` dataclass, which has
   only the fields `default` and `named`: Python raises `AttributeError`.
   The inner `resolver` closure (and with it `Container._construct`) is dead
   code on this path, because the failure happens before
   `strategy.resolve(metadata, resolver)` is reached.  The `finally` clause
   pops the key again, so the state is returned unchanged. -/
def resolve (s : ContainerState) (iface : Iface) (name : Option String) :
    Except DiErr Value × ContainerState :=
  match lookupIface s.registry iface with
  | none => (Except.error (DiErr.resolutionError (notRegisteredMsg iface)), s)
  | some nr =>
    if nr.has name then
      if (iface, name) ∈ s.stack then
        (Except.error (DiErr.circularDependencyError (cycleMsg s.stack iface name)), s)
      else
        (Except.error (DiErr.attributeError attrErrMsg), s)
    else
      (Except.error (DiErr.resolutionError (notRegisteredNamedMsg iface name)), s)

/-- `SingletonStrategy.resolve` (lifetimes.py lines 105-113): construct and
store into the record's cached-instance slot when the slot `is None`, else
return the cached instance.  The resolver closure is modelled as a total state
transformer `σ → σ × Value` (a raising resolver would propagate before the
assignment; no claim concerns that path). -/
def SingletonStrategy.resolve {σ : Type} (md : RegistrationMetadata)
    (resolver : σ → σ × Value) (st : σ) : RegistrationMetadata × σ × Value :=
  if md.inst = Value.pyNone then
    let r := resolver st
    ({ md with inst := r.2 }, r.1, r.2)
  else
    (md, st, md.inst)

/-- `TransientStrategy.resolve` (lifetimes.py lines 132-138): always construct. -/
def TransientStrategy.resolve {σ : Type} (md : RegistrationMetadata)
    (resolver : σ → σ × Value) (st : σ) : RegistrationMetadata × σ × Value :=
  let r := resolver st
  (md, r.1, r.2)

/-- `ScopedStrategy.resolve` (lifetimes.py lines 157-166): cache keyed by
`id(metadata.resolved_params)` (= `md.rpId`) inside the strategy's
`_scoped_instances` dict; the record's `inst` slot is never written. -/
def ScopedStrategy.resolve {σ : Type} (scopedInstances : List (Nat × Value))
    (md : RegistrationMetadata) (resolver : σ → σ × Value) (st : σ) :
    List (Nat × Value) × RegistrationMetadata × σ × Value :=
  match scopedInstances.lookup md.rpId with
  | some v => (scopedInstances, md, st, v)
  | none =>
    let r := resolver st
    (scopedInstances ++ [(md.rpId, r.2)], md, r.1, r.2)

/-- `Container.clear_scoped` / `ScopedStrategy.clear_scope`: empty the whole
scoped-instance map at once. -/
def clear_scoped (s : ContainerState) : ContainerState :=
  { s with scopedInstances := [] }

/-- The target type the validator extracts from an annotation: the bare class
itself, or the first non-`None` member of an optional union (`none` means the
parameter is skipped: a union containing only `NoneType`). -/
def paramTargetType (a : Annot) : Option Iface :=
  match a with
  | Annot.plain t => some t
  | Annot.unionNone ts => ts.head?

/-- `f"Parameter ... has no type hint and not defaults"` of `_validate_type`. -/
def noHintMsg (pname : String) : String :=
  "Parameter `" ++ pname ++ "` has no type hint and not defaults"

/-- `f"Cannot resolve parameter ... for interface of type ..."` of
`_validate_type`. -/
def cannotResolveMsg (pname : String) (pt : Iface) (iface : Iface) : String :=
  "Cannot resolve parameter `" ++ pname ++ "` of type `" ++ pt ++
    "` for interface of type `" ++ iface ++ "`"

mutual

/-- `Container._validate_type` (containers.py lines 641-745), which dry-runs
one registration:

1. `stack_key in visited` raises `DiCircularDependencyError`.  (Its message
   interpolates `self._resolution_stack`, which is empty during validation, so
   the chain prefix is empty; `cycleMsg []` reproduces that.)
2. Missing interface or missing name raises `DiResolutionError`.
3. The key is added to `visited`, and every introspected parameter of the
   record's factory is checked by `validateParams`.
4. `visited.remove(stack_key)` at the end has no observable effect because the
   caller always passes a copy; with the value-passing of this embedding the
   copy is implicit and the removal is a no-op.

Python's recursion is structurally unbounded, so the embedding carries fuel;
each recursion level inserts a fresh registered `(interface, None)` key into
`visited` before descending, hence the depth never exceeds the number of
registered interfaces plus one, and `validate` supplies exactly that much fuel.
Fuel exhaustion is Python's `RecursionError`. -/
def _validate_type (s : ContainerState) (fuel : Nat) (iface : Iface)
    (name : Option String) (visited : List StackKey) : Except DiErr Unit :=
  match fuel with
  | 0 => Except.error (DiErr.recursionError "maximum recursion depth exceeded")
  | Nat.succ f =>
    if (iface, name) ∈ visited then
      Except.error (DiErr.circularDependencyError (cycleMsg [] iface name))
    else
      match lookupIface s.registry iface with
      | none => Except.error (DiErr.resolutionError (notRegisteredMsg iface))
      | some nr =>
        match nr.get name with
        | none => Except.error (DiErr.resolutionError (notRegisteredNamedMsg iface name))
        | some recId =>
          match s.heap[recId]? with
          | none => Except.error (DiErr.resolutionError (notRegisteredMsg iface))
          | some md => validateParams s f ((iface, name) :: visited) iface md.factory.params
termination_by (fuel, 0)

/-- The parameter loop of `_validate_type` (containers.py lines 704-743):
parameters without annotation need a default; optional unions are unwrapped to
their first non-`None` member (pure-`None` unions are skipped); a registered
target type is validated recursively with `visited.copy()` (value-passing
makes the copy implicit, so sibling branches do not share visited state) and
an error propagates out of the loop; an unregistered target without default
raises `DiResolutionError`. -/
def validateParams (s : ContainerState) (fuel : Nat) (visited : List StackKey)
    (iface : Iface) (ps : List Param) : Except DiErr Unit :=
  match ps with
  | [] => Except.ok ()
  | p :: rest =>
    match p.annot with
    | none =>
      if p.default.isSome then validateParams s fuel visited iface rest
      else Except.error (DiErr.resolutionError (noHintMsg p.name))
    | some a =>
      match paramTargetType a with
      | none => validateParams s fuel visited iface rest
      | some pt =>
        if (lookupIface s.registry pt).isSome then
          match _validate_type s fuel pt none visited with
          | Except.ok _ => validateParams s fuel visited iface rest
          | Except.error e => Except.error e
        else if p.default.isSome then validateParams s fuel visited iface rest
        else Except.error (DiErr.resolutionError (cannotResolveMsg p.name pt iface))
termination_by (fuel, ps.length + 1)

end

/-- The `"\n    Error \x7bindex\x7d: \x7berr\x7d"` lines shared by the
aggregated messages of `validate` and the shutdown functions. -/
def errLines : Nat → List String → String
  | _, [] => ""
  | i, e :: rest => "\n    Error " ++ toString i ++ ": " ++ e ++ errLines (i + 1) rest

/-- The loop of `Container.validate` (containers.py lines 625-631): every
interface holding a default registration is dry-run; `DiResolutionError` and
`DiCircularDependencyError` are collected (the caught exception is
interpolated by its message), any other exception propagates. -/
def validateLoop (s : ContainerState) :
    List (Iface × NamedRegistrations) → List String → Except DiErr (List String)
  | [], acc => Except.ok acc
  | (i, nr) :: rest, acc =>
    if nr.default.isSome then
      match _validate_type s (s.registry.length + 1) i none [] with
      | Except.ok _ => validateLoop s rest acc
      | Except.error (DiErr.resolutionError m) =>
          validateLoop s rest (acc ++ ["Interface `" ++ i ++ "`: " ++ m])
      | Except.error (DiErr.circularDependencyError m) =>
          validateLoop s rest (acc ++ ["Interface `" ++ i ++ "`: " ++ m])
      | Except.error e => Except.error e
    else validateLoop s rest acc

/-- `Container.validate` (containers.py lines 616-639): collect the failures of
all default registrations and raise them together as one `DiValidationError`,
or return normally when there are none. -/
def validate (s : ContainerState) : Except DiErr Unit :=
  match validateLoop s s.registry [] with
  | Except.error e => Except.error e
  | Except.ok errors =>
    if errors.isEmpty then Except.ok ()
    else
      Except.error (DiErr.validationError
        ((if errors.length > 1 then "Errors" else "Error") ++
          " raised during container validation:\n" ++ errLines 0 errors))

/-- Record ids referenced by the registry, in registry iteration order
(default first, then named, per interface). -/
def regIds (s : ContainerState) : List Nat :=
  s.registry.flatMap (fun p => p.2.all_metadata)

/-- The iteration order of the shutdown loops (containers.py lines 551-554 and
584-587): `reversed(self._registry.values())`, and within one holder
`reversed(all_metadata())`. -/
def shutdownTargets (s : ContainerState) : List Nat :=
  s.registry.reverse.flatMap (fun p => p.2.all_metadata.reverse)

/-- Whether a record would be cleaned up: it has a cleanup callback and a
realized (non-`None`) cached instance. -/
def cleanableB (s : ContainerState) (i : Nat) : Bool :=
  match s.heap[i]? with
  | some md => if md.inst = Value.pyNone then false else md.cleanup.isSome
  | none => false

/-- The skip message appended by the synchronous `shutdown_resources` for an
awaitable cleanup (containers.py lines 557-560). -/
def awaitableSkipMsg (inst : Value) : String :=
  "An awaitable resource cleanup for instance `" ++ pyStr inst ++
    "` can not be called with `shutdown_resources`. Skipped it"

/-- The message appended when a cleanup raises (containers.py lines 566-569). -/
def cleanupFailMsg (inst : Value) (excMsg : String) : String :=
  "An exception occured when cleaning up resource for instance `" ++
    pyStr inst ++ "`: " ++ excMsg

/-- `Container._construct_shutdown_resource_err_msg`. -/
def _construct_shutdown_resource_err_msg (errors : List String) : String :=
  (if errors.length > 1 then "Errors" else "Error") ++
    " raised while shutting down resources:" ++ errLines 0 errors

/-- One iteration of the `shutdown_resources` loop body for the record `recId`.
The accumulator carries the cleanup invocations performed so far (record id
together with the cached instance passed to the callback) and the collected
error strings.  A record without cleanup or without realized instance is
skipped; an awaitable cleanup is not invoked and contributes the skip message;
a raising cleanup is still counted as invoked and contributes its message. -/
def syncCleanupStep (s : ContainerState) (acc : List (Nat × Value) × List String)
    (recId : Nat) : List (Nat × Value) × List String :=
  match s.heap[recId]? with
  | none => acc
  | some md =>
    match md.cleanup with
    | none => acc
    | some c =>
      if md.inst = Value.pyNone then acc
      else if c.isAsync then (acc.1, acc.2 ++ [awaitableSkipMsg md.inst])
      else
        match c.raises with
        | none => (acc.1 ++ [(recId, md.inst)], acc.2)
        | some m => (acc.1 ++ [(recId, md.inst)], acc.2 ++ [cleanupFailMsg md.inst m])

/-- One iteration of the `async_shutdown_resources` loop body: identical to the
synchronous one except that awaitable cleanups are awaited transparently. -/
def asyncCleanupStep (s : ContainerState) (acc : List (Nat × Value) × List String)
    (recId : Nat) : List (Nat × Value) × List String :=
  match s.heap[recId]? with
  | none => acc
  | some md =>
    match md.cleanup with
    | none => acc
    | some c =>
      if md.inst = Value.pyNone then acc
      else
        match c.raises with
        | none => (acc.1 ++ [(recId, md.inst)], acc.2)
        | some m => (acc.1 ++ [(recId, md.inst)], acc.2 ++ [cleanupFailMsg md.inst m])

/-- `Container.shutdown_resources` (containers.py lines 542-573): walk every
registration record in the order `shutdownTargets`, attempt each cleanup
(collecting failures rather than aborting), and raise one aggregated
`DiCallableError` at the end if anything failed.  The loop never assigns
`metadata.instance`, so the container state is returned unchanged; the first
component records the performed cleanup invocations in order. -/
def shutdown_resources (s : ContainerState) :
    List (Nat × Value) × Except DiErr Unit × ContainerState :=
  let r := (shutdownTargets s).foldl (syncCleanupStep s) ([], [])
  if r.2.isEmpty then (r.1, Except.ok (), s)
  else (r.1, Except.error (DiErr.callableError (_construct_shutdown_resource_err_msg r.2)), s)

/-- `Container.async_shutdown_resources` (containers.py lines 575-602): same
walk, but synchronous and awaitable cleanups are both invoked. -/
def async_shutdown_resources (s : ContainerState) :
    List (Nat × Value) × Except DiErr Unit × ContainerState :=
  let r := (shutdownTargets s).foldl (asyncCleanupStep s) ([], [])
  if r.2.isEmpty then (r.1, Except.ok (), s)
  else (r.1, Except.error (DiErr.callableError (_construct_shutdown_resource_err_msg r.2)), s)

/-- Boolean prefix test on character lists (for the computable substring
search). -/
def isPrefixB : List Char → List Char → Bool
  | [], _ => true
  | _ :: _, [] => false
  | c :: cs, d :: ds => c == d && isPrefixB cs ds

/-- Boolean substring search: does `needle` occur inside `hay`? -/
def containsB (hay needle : List Char) : Bool :=
  match hay with
  | [] => needle.isEmpty
  | c :: rest => isPrefixB needle (c :: rest) || containsB rest needle

/-- `needle` occurs as a contiguous substring of `hay`. -/
def strContains (hay needle : String) : Prop :=
  ∃ a b : String, hay = a ++ needle ++ b

theorem isPrefixB_append (n b : List Char) : isPrefixB n (n ++ b) = true := by
  induction n with
  | nil => rfl
  | cons c cs ih => simp [isPrefixB, ih]

theorem containsB_of_prefix (n hay : List Char) (h : isPrefixB n hay = true) :
    containsB hay n = true := by
  cases hay with
  | nil => cases n with
    | nil => rfl
    | cons c cs => simp [isPrefixB] at h
  | cons c rest => simp [containsB, h]

theorem containsB_append (a n b : List Char) : containsB (a ++ (n ++ b)) n = true := by
  induction a with
  | nil => exact containsB_of_prefix _ _ (isPrefixB_append n b)
  | cons c a ih => simp [containsB, ih]

/-- Soundness of the Boolean search: a substring witness makes `containsB`
true; contrapositively, `containsB ... = false` refutes `strContains`. -/
theorem strContains_containsB {hay needle : String} (h : strContains hay needle) :
    containsB hay.data needle.data = true := by
  obtain ⟨a, b, hab⟩ := h
  rw [hab]
  simp only [String.data_append, List.append_assoc]
  exact containsB_append a.data needle.data b.data

/-- The state after the record `recId`'s cached-instance slot has been realized
with `v`, exactly what `SingletonStrategy.resolve` does to the record on first
construction (`metadata.instance = resolver()`).  Used to build the post-first-
resolve registries the lifecycle claims quantify over. -/
def realizeInstance (s : ContainerState) (recId : Nat) (v : Value) : ContainerState :=
  match s.heap[recId]? with
  | some md => { s with heap := s.heap.set recId { md with inst := v } }
  | none => s

/-! ## Helper lemmas about the registry -/

theorem lookupIface_mem {reg : List (Iface × NamedRegistrations)} {i : Iface}
    {nr : NamedRegistrations} (h : lookupIface reg i = some nr) : (i, nr) ∈ reg := by
  induction reg with
  | nil => simp [lookupIface] at h
  | cons e rest ih =>
    obtain ⟨j, nr₀⟩ := e
    by_cases hj : j = i
    · subst hj
      simp [lookupIface] at h
      simp [h]
    · simp [lookupIface, hj] at h
      exact List.mem_cons_of_mem _ (ih h)

theorem mem_lookupIface {reg : List (Iface × NamedRegistrations)} {i : Iface}
    {nr : NamedRegistrations} (hmem : (i, nr) ∈ reg)
    (hnd : (reg.map Prod.fst).Nodup) : lookupIface reg i = some nr := by
  induction reg with
  | nil => simp at hmem
  | cons e rest ih =>
    obtain ⟨j, nr₀⟩ := e
    simp only [List.map_cons, List.nodup_cons] at hnd
    rcases List.mem_cons.mp hmem with heq | htail
    · obtain ⟨h1, h2⟩ := Prod.mk.injEq .. ▸ congrArg id heq
      cases heq
      simp [lookupIface]
    · have hji : j ≠ i := by
        intro hji
        subst hji
        exact hnd.1 (List.mem_map.mpr ⟨(j, nr), htail, rfl⟩)
      simp [lookupIface, hji]
      exact ih htail hnd.2

/-! ## Concrete fixtures (mirroring the classes used by the test suite) -/

/-- A zero-parameter class, like `Config` in `tests/_classes.py`. -/
def noArgCtor : Factory := ⟨[], FactoryKind.ctor⟩

/-- `CircularA.__init__(self, b: CircularB)`. -/
def circAFactory : Factory := ⟨[⟨"b", some (Annot.plain "CircularB"), none⟩], FactoryKind.ctor⟩

/-- `CircularB.__init__(self, a: CircularA)`. -/
def circBFactory : Factory := ⟨[⟨"a", some (Annot.plain "CircularA"), none⟩], FactoryKind.ctor⟩

/-- `OptionalDependencyService.__init__(self, cache: Cache | None = None)`. -/
def optServiceFactory : Factory :=
  ⟨[⟨"cache", some (Annot.unionNone ["Cache"]), some Value.pyNone⟩], FactoryKind.ctor⟩

/-- A container with a default and a named (`"special"`) singleton
registration of `Config` (as in `test_named_registration_respects_lifetime`). -/
def sC1 : ContainerState :=
  register (register emptyContainer "Config" noArgCtor none none Lifetime.singleton false)
    "Config" noArgCtor (some "special") none Lifetime.singleton false

/-- A container with one default singleton registration of `Config`
(as in `test_singleton_returns_same_instances`). -/
def sC2 : ContainerState :=
  register emptyContainer "Config" noArgCtor none none Lifetime.singleton false

/-- A container with the mutually dependent `CircularA`/`CircularB`
(as in `test_circular_dependency_detection`). -/
def sC3 : ContainerState :=
  register (register emptyContainer "CircularA" circAFactory none none Lifetime.transient false)
    "CircularB" circBFactory none none Lifetime.transient false

/-- `OptionalDependencyService` registered, `Cache` not registered
(as in `test_optional_dependency_not_registered`). -/
def sC9 : ContainerState :=
  register emptyContainer "OptionalDependencyService" optServiceFactory none none
    Lifetime.transient false

/-- `OptionalDependencyService` and `Cache` both registered
(as in `test_optional_dependency_registered`). -/
def sC9r : ContainerState :=
  register sC9 "Cache" noArgCtor none none Lifetime.singleton false

/-! ## C1 -/

/-- C1 (refuted by the code, which its own tests contradict): `resolve` is
claimed to look up exactly the record stored under `(abstraction, name)` and
delegate it to the lifetime strategy selected by that record's lifetime tag.
In the code, after the existence checks succeed, line 286 binds the whole
`NamedRegistrations` holder instead of `.get(name)`, so both the named and the
default resolution of a registered `Config` raise `AttributeError` (the holder
has no `lifetime` attribute) instead of delegating any record - even though
the registry does hold the default record (id 0) and the `"special"` record
(id 1), as the third conjunct shows. -/
theorem C1_resolve_skips_record_lookup :
    resolve sC1 "Config" (some "special") =
      (Except.error (DiErr.attributeError attrErrMsg), sC1) ∧
    resolve sC1 "Config" none = (Except.error (DiErr.attributeError attrErrMsg), sC1) ∧
    lookupIface sC1.registry "Config" =
      some { default := some 0, named := [("special", 1)] } := by
  refine ⟨rfl, rfl, rfl⟩

/-! ## C2 -/

/-- C2 (refuted by the code, which its own tests contradict): two successive
`resolve` calls for a singleton `Config` registration are claimed to return
the identical instance.  Because `Container.resolve` binds the
`NamedRegistrations` holder instead of the record (line 286), both calls raise
`AttributeError` before any strategy or factory runs, returning no instance at
all; the second call (on the state returned by the first) fails identically. -/
theorem C2_singleton_resolve_raises_instead_of_caching :
    resolve sC2 "Config" none = (Except.error (DiErr.attributeError attrErrMsg), sC2) ∧
    resolve (resolve sC2 "Config" none).2 "Config" none =
      (Except.error (DiErr.attributeError attrErrMsg), sC2) := by
  exact ⟨rfl, rfl⟩

/-! ## C3 -/

/-- C3 (refuted by the code, which its own tests contradict): resolving the
mutually dependent `CircularA` is claimed to raise `CircularDependencyError`
carrying the chain `CircularA(default) -> CircularB(default) ->
CircularA(default)`.  The faulty metadata binding of `Container.resolve`
raises `AttributeError` in the very first frame, before the recursive
construction that would revisit the stack key can ever start, so no
`CircularDependencyError` (with any message) is produced. -/
theorem C3_cycle_never_detected :
    resolve sC3 "CircularA" none = (Except.error (DiErr.attributeError attrErrMsg), sC3) ∧
    ∀ m : String,
      (resolve sC3 "CircularA" none).1 ≠ Except.error (DiErr.circularDependencyError m) := by
  refine ⟨rfl, ?_⟩
  intro m h
  rw [show (resolve sC3 "CircularA" none).1
      = Except.error (DiErr.attributeError attrErrMsg) from rfl] at h
  simp at h

/-! ## C9 -/

/-- C9 (refuted by the code, which its own tests contradict): a constructor
parameter `cache: Cache | None = None` is claimed to resolve to the registered
`Cache` instance when `Cache` is registered and to the declared default when
it is not, with construction succeeding either way.  The faulty metadata
binding of `Container.resolve` raises `AttributeError` before
`Container._construct` (where the optional-parameter logic lives) can run, so
`OptionalDependencyService` is never constructed in either scenario. -/
theorem C9_optional_params_never_reached :
    resolve sC9 "OptionalDependencyService" none =
      (Except.error (DiErr.attributeError attrErrMsg), sC9) ∧
    resolve sC9r "OptionalDependencyService" none =
      (Except.error (DiErr.attributeError attrErrMsg), sC9r) := by
  exact ⟨rfl, rfl⟩

/-! ## C4 -/

/-- C4 (confirmed): resolving an interface with no registration at all returns
`DiResolutionError` whose message contains `"not registered"`, and resolving
the named variant `"special"` when that name is not registered (e.g. only a
default exists) returns `DiResolutionError` whose message contains
`"special"`.  In both cases the state is returned untouched: the failure
happens before the key is pushed and before any construction. -/
theorem C4_unregistered_resolution_errors :
    (∀ (s : ContainerState) (iface : Iface) (name : Option String),
      lookupIface s.registry iface = none →
        resolve s iface name =
          (Except.error (DiErr.resolutionError (notRegisteredMsg iface)), s) ∧
        strContains (notRegisteredMsg iface) "not registered") ∧
    (∀ (s : ContainerState) (iface : Iface) (nr : NamedRegistrations),
      lookupIface s.registry iface = some nr →
      nr.has (some "special") = false →
        resolve s iface (some "special") =
          (Except.error (DiErr.resolutionError (notRegisteredNamedMsg iface (some "special"))), s) ∧
        strContains (notRegisteredNamedMsg iface (some "special")) "special") := by
  constructor
  · intro s iface name h
    constructor
    · simp [resolve, h]
    · refine ⟨"Interface type `" ++ iface ++ "` is ", "", ?_⟩
      simp [notRegisteredMsg, String.append_assoc]
  · intro s iface nr h hhas
    constructor
    · simp [resolve, h, hhas]
    · refine ⟨"Interface type `" ++ iface ++ "` with name `", "` is not registered", ?_⟩
      simp [notRegisteredNamedMsg, nameStr, String.append_assoc]

/-- Witness for C4 at concrete inputs: an empty container for the missing
default, and a container holding only a default `Config` registration for the
missing name `"special"` (as in `test_resolve_named_when_only_default_exists`). -/
theorem C4_unregistered_resolution_errors_witness :
    (lookupIface emptyContainer.registry "Ghost" = none ∧
      resolve emptyContainer "Ghost" none =
        (Except.error (DiErr.resolutionError (notRegisteredMsg "Ghost")), emptyContainer)) ∧
    (lookupIface sC2.registry "Config" = some { default := some 0, named := [] } ∧
      NamedRegistrations.has { default := some 0, named := [] } (some "special") = false ∧
      resolve sC2 "Config" (some "special") =
        (Except.error (DiErr.resolutionError (notRegisteredNamedMsg "Config" (some "special"))), sC2)) := by
  refine ⟨⟨rfl, ?_⟩, ⟨rfl, rfl, ?_⟩⟩
  · exact (C4_unregistered_resolution_errors.1 emptyContainer "Ghost" none rfl).1
  · exact (C4_unregistered_resolution_errors.2 sC2 "Config"
      { default := some 0, named := [] } rfl rfl).1

/-! ## C5: the validator accepts every acyclic closed default graph

Acyclicity is certified by a rank function that strictly decreases along every
dependency edge (for a finite graph this is equivalent to having no cycle). -/

/-- `p` is a dependency edge the validator can discharge: a bare class
annotation whose target is registered with a default and has strictly smaller
rank. -/
def goodDepB (s : ContainerState) (rank : Iface → Nat) (i : Iface) (p : Param) : Bool :=
  match p.annot with
  | some (Annot.plain t) =>
    (match lookupIface s.registry t with
     | some nr2 => nr2.default.isSome
     | none => false) && decide (rank t < rank i)
  | _ => false

/-- Every default record of the holder exists in the heap and all its factory
parameters are good dependency edges. -/
def goodEntryB (s : ContainerState) (rank : Iface → Nat) (i : Iface)
    (nr : NamedRegistrations) : Bool :=
  match nr.default with
  | none => true
  | some recId =>
    match s.heap[recId]? with
    | none => false
    | some md => md.factory.params.all (goodDepB s rank i)

theorem validateParams_ok (s : ContainerState) (rank : Iface → Nat) (f : Nat)
    (IH : ∀ i visited nr, lookupIface s.registry i = some nr →
        nr.default.isSome = true → rank i < f →
        (∀ k ∈ visited, rank i < rank k.1) →
        _validate_type s f i none visited = Except.ok ())
    (i : Iface) (visited : List StackKey)
    (hvis : ∀ k ∈ visited, rank i ≤ rank k.1)
    (hf : rank i ≤ f) :
    ∀ ps, (∀ p ∈ ps, goodDepB s rank i p = true) →
      validateParams s f visited i ps = Except.ok () := by
  intro ps
  induction ps with
  | nil => intro _; simp [validateParams]
  | cons p rest ihp =>
    intro hps
    have hp := hps p (List.mem_cons_self ..)
    have hrest : ∀ q ∈ rest, goodDepB s rank i q = true :=
      fun q hq => hps q (List.mem_cons_of_mem _ hq)
    rw [goodDepB] at hp
    split at hp
    case h_2 => simp at hp
    case h_1 t hann =>
      rw [Bool.and_eq_true, decide_eq_true_eq] at hp
      obtain ⟨hp1, hrank⟩ := hp
      split at hp1
      case h_2 => simp at hp1
      case h_1 nr2 hlook =>
        have hrec : _validate_type s f t none visited = Except.ok () := by
          apply IH t visited nr2 hlook hp1 (lt_of_lt_of_le hrank hf)
          intro k hk
          exact lt_of_lt_of_le hrank (hvis k hk)
        simp [validateParams, hann, paramTargetType, hlook, hrec, ihp hrest]

theorem _validate_type_ok (s : ContainerState) (rank : Iface → Nat)
    (hgood : ∀ e ∈ s.registry, goodEntryB s rank e.1 e.2 = true) :
    ∀ fuel i visited nr, lookupIface s.registry i = some nr →
      nr.default.isSome = true → rank i < fuel →
      (∀ k ∈ visited, rank i < rank k.1) →
      _validate_type s fuel i none visited = Except.ok () := by
  intro fuel
  induction fuel with
  | zero =>
    intro i visited nr _ _ hrank _
    exact absurd hrank (Nat.not_lt_zero _)
  | succ f ihf =>
    intro i visited nr hlook hdef hrank hvis
    have hnotmem : ((i, none) : StackKey) ∉ visited := fun hmem =>
      absurd (hvis _ hmem) (lt_irrefl _)
    obtain ⟨recId, hrec⟩ := Option.isSome_iff_exists.mp hdef
    have hge := hgood (i, nr) (lookupIface_mem hlook)
    simp only [goodEntryB, hrec] at hge
    split at hge
    case h_1 => simp at hge
    case h_2 =>
      rename_i md hmd
      rw [List.all_eq_true] at hge
      have hparams :=
        validateParams_ok s rank f ihf i (((i, none) : StackKey) :: visited)
          (by
            intro k hk
            rcases List.mem_cons.mp hk with hk | hk
            · subst hk; exact le_refl _
            · exact le_of_lt (hvis k hk))
          (Nat.lt_succ_iff.mp hrank)
          md.factory.params (fun p hp => hge p hp)
      simp [_validate_type, hnotmem, hlook, NamedRegistrations.get, hrec, hmd, hparams]

theorem validateLoop_ok (s : ContainerState) (rank : Iface → Nat)
    (hnd : (s.registry.map Prod.fst).Nodup)
    (hgood : ∀ e ∈ s.registry, goodEntryB s rank e.1 e.2 = true)
    (hbound : ∀ e ∈ s.registry, rank e.1 < s.registry.length + 1) :
    ∀ l acc, (∀ e ∈ l, e ∈ s.registry) → validateLoop s l acc = Except.ok acc := by
  intro l
  induction l with
  | nil => intro acc _; simp [validateLoop]
  | cons e rest ih =>
    intro acc hsub
    obtain ⟨i, nr⟩ := e
    have hmem : (i, nr) ∈ s.registry := hsub _ (List.mem_cons_self ..)
    have htail : ∀ q ∈ rest, q ∈ s.registry :=
      fun q hq => hsub q (List.mem_cons_of_mem _ hq)
    cases hdef : nr.default.isSome with
    | false => simp [validateLoop, hdef, ih acc htail]
    | true =>
      have hok := _validate_type_ok s rank hgood (s.registry.length + 1) i [] nr
        (mem_lookupIface hmem hnd) hdef (hbound _ hmem) (by intro k hk; simp at hk)
      simp [validateLoop, hdef, hok, ih acc htail]

/-- C5 (confirmed): for every container whose default registrations form a
closed, acyclic dependency graph of bare class annotations - acyclicity
witnessed by a rank function strictly decreasing along every edge, which any
finite acyclic graph admits; diamonds where sibling subtrees share a
dependency are allowed, since a shared target merely has smaller rank than
both siblings - `validate()` returns normally.  The per-branch
`visited.copy()` of `_validate_type` is what makes the diamond case go
through: the sibling recursion receives the visited set from before the first
branch (see the witness, whose graph is exactly a diamond). -/
theorem C5_validate_acyclic_ok (s : ContainerState) (rank : Iface → Nat)
    (hnd : (s.registry.map Prod.fst).Nodup)
    (hgood : ∀ e ∈ s.registry, goodEntryB s rank e.1 e.2 = true)
    (hbound : ∀ e ∈ s.registry, rank e.1 < s.registry.length + 1) :
    validate s = Except.ok () := by
  have hloop := validateLoop_ok s rank hnd hgood hbound s.registry [] (fun e he => he)
  simp [validate, hloop]

/-- The diamond graph `A -> B, C`; `B -> D`; `C -> D`; `D` leaf, all default
transient registrations. -/
def sC5 : ContainerState :=
  register
    (register
      (register
        (register emptyContainer "D" noArgCtor none none Lifetime.transient false)
        "B" ⟨[⟨"d", some (Annot.plain "D"), none⟩], FactoryKind.ctor⟩ none none
        Lifetime.transient false)
      "C" ⟨[⟨"d", some (Annot.plain "D"), none⟩], FactoryKind.ctor⟩ none none
      Lifetime.transient false)
    "A" ⟨[⟨"b", some (Annot.plain "B"), none⟩, ⟨"c", some (Annot.plain "C"), none⟩],
      FactoryKind.ctor⟩ none none Lifetime.transient false

/-- A topological rank for the diamond. -/
def rankC5 : Iface → Nat :=
  fun i => if i = "A" then 2 else if i = "B" then 1 else if i = "C" then 1 else 0

/-- Witness for C5: the diamond container satisfies the acyclicity hypotheses
and `validate` accepts it. -/
theorem C5_validate_acyclic_ok_witness :
    ((sC5.registry.map Prod.fst).Nodup ∧
      (∀ e ∈ sC5.registry, goodEntryB sC5 rankC5 e.1 e.2 = true) ∧
      (∀ e ∈ sC5.registry, rankC5 e.1 < sC5.registry.length + 1)) ∧
    validate sC5 = Except.ok () := by
  have h1 : (sC5.registry.map Prod.fst).Nodup := by decide
  have h2 : ∀ e ∈ sC5.registry, goodEntryB sC5 rankC5 e.1 e.2 = true := by decide
  have h3 : ∀ e ∈ sC5.registry, rankC5 e.1 < sC5.registry.length + 1 := by decide
  exact ⟨⟨h1, h2, h3⟩, C5_validate_acyclic_ok sC5 rankC5 h1 h2 h3⟩

/-! ## Shutdown analysis (C6, C7, C8) -/

/-- The cleanup invocation the synchronous loop performs for one record, if
any: skipped without cleanup, without realized instance, or with an awaitable
cleanup. -/
def syncInvokePick (s : ContainerState) (recId : Nat) : Option (Nat × Value) :=
  match s.heap[recId]? with
  | none => none
  | some md =>
    match md.cleanup with
    | none => none
    | some c =>
      if md.inst = Value.pyNone then none
      else if c.isAsync then none
      else some (recId, md.inst)

/-- The error string the synchronous loop collects for one record, if any. -/
def syncErrPick (s : ContainerState) (recId : Nat) : Option String :=
  match s.heap[recId]? with
  | none => none
  | some md =>
    match md.cleanup with
    | none => none
    | some c =>
      if md.inst = Value.pyNone then none
      else if c.isAsync then some (awaitableSkipMsg md.inst)
      else
        match c.raises with
        | none => none
        | some m => some (cleanupFailMsg md.inst m)

/-- The cleanup invocation the asynchronous loop performs for one record. -/
def asyncInvokePick (s : ContainerState) (recId : Nat) : Option (Nat × Value) :=
  match s.heap[recId]? with
  | none => none
  | some md =>
    match md.cleanup with
    | none => none
    | some _ => if md.inst = Value.pyNone then none else some (recId, md.inst)

/-- The error string the asynchronous loop collects for one record, if any. -/
def asyncErrPick (s : ContainerState) (recId : Nat) : Option String :=
  match s.heap[recId]? with
  | none => none
  | some md =>
    match md.cleanup with
    | none => none
    | some c =>
      if md.inst = Value.pyNone then none
      else
        match c.raises with
        | none => none
        | some m => some (cleanupFailMsg md.inst m)

/-- The error strings collected by `shutdown_resources`. -/
def syncErrs (s : ContainerState) : List String :=
  (shutdownTargets s).filterMap (syncErrPick s)

/-- The error strings collected by `async_shutdown_resources`. -/
def asyncErrs (s : ContainerState) : List String :=
  (shutdownTargets s).filterMap (asyncErrPick s)

/-- Whether the synchronous loop invokes the record's cleanup: cleanable and
not awaitable. -/
def syncCleanableB (s : ContainerState) (i : Nat) : Bool :=
  match s.heap[i]? with
  | some md =>
    if md.inst = Value.pyNone then false
    else
      match md.cleanup with
      | some c => !c.isAsync
      | none => false
  | none => false

theorem syncCleanupStep_eq (s : ContainerState) (acc : List (Nat × Value) × List String)
    (t : Nat) :
    syncCleanupStep s acc t =
      (acc.1 ++ (syncInvokePick s t).toList, acc.2 ++ (syncErrPick s t).toList) := by
  cases h : s.heap[t]? with
  | none => simp [syncCleanupStep, syncInvokePick, syncErrPick, h]
  | some md =>
    cases hc : md.cleanup with
    | none => simp [syncCleanupStep, syncInvokePick, syncErrPick, h, hc]
    | some c =>
      by_cases hi : md.inst = Value.pyNone
      · simp [syncCleanupStep, syncInvokePick, syncErrPick, h, hc, hi]
      · cases hA : c.isAsync with
        | true => simp [syncCleanupStep, syncInvokePick, syncErrPick, h, hc, hi, hA]
        | false =>
          cases hr : c.raises with
          | none => simp [syncCleanupStep, syncInvokePick, syncErrPick, h, hc, hi, hA, hr]
          | some m => simp [syncCleanupStep, syncInvokePick, syncErrPick, h, hc, hi, hA, hr]

theorem asyncCleanupStep_eq (s : ContainerState) (acc : List (Nat × Value) × List String)
    (t : Nat) :
    asyncCleanupStep s acc t =
      (acc.1 ++ (asyncInvokePick s t).toList, acc.2 ++ (asyncErrPick s t).toList) := by
  cases h : s.heap[t]? with
  | none => simp [asyncCleanupStep, asyncInvokePick, asyncErrPick, h]
  | some md =>
    cases hc : md.cleanup with
    | none => simp [asyncCleanupStep, asyncInvokePick, asyncErrPick, h, hc]
    | some c =>
      by_cases hi : md.inst = Value.pyNone
      · simp [asyncCleanupStep, asyncInvokePick, asyncErrPick, h, hc, hi]
      · cases hr : c.raises with
        | none => simp [asyncCleanupStep, asyncInvokePick, asyncErrPick, h, hc, hi, hr]
        | some m => simp [asyncCleanupStep, asyncInvokePick, asyncErrPick, h, hc, hi, hr]

theorem foldl_accumulate {α : Type} (f : α → Option (Nat × Value)) (g : α → Option String)
    (step : List (Nat × Value) × List String → α → List (Nat × Value) × List String)
    (hstep : ∀ acc t, step acc t = (acc.1 ++ (f t).toList, acc.2 ++ (g t).toList)) :
    ∀ (ts : List α) (acc : List (Nat × Value) × List String),
      ts.foldl step acc = (acc.1 ++ ts.filterMap f, acc.2 ++ ts.filterMap g) := by
  intro ts
  induction ts with
  | nil => intro acc; simp
  | cons t ts ih =>
    intro acc
    rw [List.foldl_cons, hstep, ih]
    cases hf : f t <;> cases hg : g t <;>
      simp [List.filterMap_cons, hf, hg]

theorem shutdown_resources_eq (s : ContainerState) :
    shutdown_resources s =
      ((shutdownTargets s).filterMap (syncInvokePick s),
        (if (syncErrs s).isEmpty then Except.ok ()
         else Except.error (DiErr.callableError (_construct_shutdown_resource_err_msg (syncErrs s)))),
        s) := by
  have h := foldl_accumulate (syncInvokePick s) (syncErrPick s) (syncCleanupStep s)
    (syncCleanupStep_eq s) (shutdownTargets s) ([], [])
  simp only [List.nil_append] at h
  rw [shutdown_resources, h]
  by_cases he : ((shutdownTargets s).filterMap (syncErrPick s)).isEmpty <;>
    simp [syncErrs, he]

theorem async_shutdown_resources_eq (s : ContainerState) :
    async_shutdown_resources s =
      ((shutdownTargets s).filterMap (asyncInvokePick s),
        (if (asyncErrs s).isEmpty then Except.ok ()
         else Except.error (DiErr.callableError (_construct_shutdown_resource_err_msg (asyncErrs s)))),
        s) := by
  have h := foldl_accumulate (asyncInvokePick s) (asyncErrPick s) (asyncCleanupStep s)
    (asyncCleanupStep_eq s) (shutdownTargets s) ([], [])
  simp only [List.nil_append] at h
  rw [async_shutdown_resources, h]
  by_cases he : ((shutdownTargets s).filterMap (asyncErrPick s)).isEmpty <;>
    simp [asyncErrs, he]

/-- Record ids in registration order: the heap is append-only and one record is
allocated per `register`/`register_instance` call, so the heap index order is
the registration order. -/
def registrationOrder (s : ContainerState) : List Nat := List.range s.heap.length

/-- The shutdown attempt order as the amended claim describes it: interfaces in
reverse of their first-registration order, and within one interface the named
variants in reverse insertion order followed by the default.  (Spec-side
definition, to be compared with the code's `shutdownTargets`.) -/
def amendedShutdownOrder (s : ContainerState) : List Nat :=
  s.registry.reverse.flatMap
    (fun p => p.2.named.reverse.map Prod.snd ++
      (match p.2.default with | some i => [i] | none => []))

theorem flatMap_congr_fun {α β : Type} {f g : α → List β} (h : ∀ x, f x = g x) :
    ∀ l : List α, l.flatMap f = l.flatMap g := by
  intro l
  induction l with
  | nil => rfl
  | cons a l ih => simp [List.flatMap_cons, h a, ih]

theorem shutdownTargets_eq_amended (s : ContainerState) :
    shutdownTargets s = amendedShutdownOrder s := by
  unfold shutdownTargets amendedShutdownOrder
  apply flatMap_congr_fun
  intro p
  cases h : p.2.default <;>
    simp [NamedRegistrations.all_metadata, h, List.reverse_append, List.map_reverse]

theorem flatMap_reverse_perm {α β : Type} (f : α → List β) :
    ∀ l : List α, (l.reverse.flatMap f).Perm (l.flatMap f) := by
  intro l
  induction l with
  | nil => exact List.Perm.refl _
  | cons a l ih =>
    simp only [List.reverse_cons, List.flatMap_append, List.flatMap_cons,
      List.flatMap_nil, List.append_nil]
    exact (ih.append_right (f a)).trans List.perm_append_comm

theorem shutdownTargets_perm_regIds (s : ContainerState) :
    (shutdownTargets s).Perm (regIds s) := by
  have h1 : (shutdownTargets s).Perm
      (s.registry.flatMap (fun p => p.2.all_metadata.reverse)) :=
    flatMap_reverse_perm _ s.registry
  have h2 : (s.registry.flatMap (fun p => p.2.all_metadata.reverse)).Perm (regIds s) := by
    unfold regIds
    induction s.registry with
    | nil => exact List.Perm.refl _
    | cons e rest ih =>
      simp only [List.flatMap_cons]
      exact List.Perm.append (e.2.all_metadata.reverse_perm) ih
  exact h1.trans h2

theorem filterMap_pick_map_fst {p : Nat → Bool} {v : Nat → Value} :
    ∀ ts : List Nat,
      ((ts.filterMap (fun t => if p t then some (t, v t) else none)).map Prod.fst)
        = ts.filter p := by
  intro ts
  induction ts with
  | nil => rfl
  | cons t ts ih =>
    by_cases h : p t <;> simp [List.filterMap_cons, List.filter_cons, h, ih]

/-- The cached instance of the record `i`, defaulting to `None`. -/
def heapInst (s : ContainerState) (i : Nat) : Value :=
  match s.heap[i]? with
  | some md => md.inst
  | none => Value.pyNone

theorem syncInvokePick_eq (s : ContainerState) (t : Nat) :
    syncInvokePick s t =
      if syncCleanableB s t then some (t, heapInst s t) else none := by
  cases h : s.heap[t]? with
  | none => simp [syncInvokePick, syncCleanableB, heapInst, h]
  | some md =>
    cases hc : md.cleanup with
    | none => simp [syncInvokePick, syncCleanableB, heapInst, h, hc]
    | some c =>
      by_cases hi : md.inst = Value.pyNone
      · simp [syncInvokePick, syncCleanableB, heapInst, h, hc, hi]
      · cases hA : c.isAsync <;>
          simp [syncInvokePick, syncCleanableB, heapInst, h, hc, hi, hA]

theorem asyncInvokePick_eq (s : ContainerState) (t : Nat) :
    asyncInvokePick s t =
      if cleanableB s t then some (t, heapInst s t) else none := by
  cases h : s.heap[t]? with
  | none => simp [asyncInvokePick, cleanableB, heapInst, h]
  | some md =>
    cases hc : md.cleanup with
    | none => simp [asyncInvokePick, cleanableB, heapInst, h, hc]
    | some c =>
      by_cases hi : md.inst = Value.pyNone <;>
        simp [asyncInvokePick, cleanableB, heapInst, h, hc, hi]

theorem errLines_mem_contains (e : String) :
    ∀ (errs : List String) (i : Nat), e ∈ errs →
      ∃ a b : String, errLines i errs = a ++ (e ++ b) := by
  intro errs
  induction errs with
  | nil => intro i h; simp at h
  | cons f rest ih =>
    intro i h
    rcases List.mem_cons.mp h with heq | htail
    · subst heq
      refine ⟨"\n    Error " ++ toString i ++ ": ", errLines (i + 1) rest, ?_⟩
      simp [errLines, String.append_assoc]
    · obtain ⟨a, b, hab⟩ := ih (i + 1) htail
      refine ⟨"\n    Error " ++ toString i ++ ": " ++ f ++ a, b, ?_⟩
      simp [errLines, hab, String.append_assoc]

/-- Every collected failure string occurs verbatim inside the aggregated
shutdown error message. -/
theorem aggMsg_contains {e : String} {errs : List String} (h : e ∈ errs) :
    strContains (_construct_shutdown_resource_err_msg errs) e := by
  obtain ⟨a, b, hab⟩ := errLines_mem_contains e errs 0 h
  refine ⟨(if errs.length > 1 then "Errors" else "Error") ++
    " raised while shutting down resources:" ++ a, b, ?_⟩
  simp [_construct_shutdown_resource_err_msg, hab, String.append_assoc]

/-! ## C6 -/

/-- Interleaved registrations: `A` default, then `B` default, then `A` named
`"y"`, each with a (sync, succeeding) cleanup and a realized instance. -/
def cs6 : ContainerState :=
  realizeInstance (realizeInstance (realizeInstance
    (register (register (register emptyContainer
      "A" noArgCtor none (some ⟨false, none⟩) Lifetime.singleton false)
      "B" noArgCtor none (some ⟨false, none⟩) Lifetime.singleton false)
      "A" noArgCtor (some "y") (some ⟨false, none⟩) Lifetime.singleton false)
    0 (Value.obj 0)) 1 (Value.obj 1)) 2 (Value.obj 2)

/-- C6 counterexample: with interleaved registrations the code attempts
cleanups grouped by interface - here `B`, then `A`-named, then `A`-default,
i.e. record ids `[1, 2, 0]` - which is not the reverse of registration order
`[2, 1, 0]`. -/
theorem C6_counterexample_order :
    (shutdown_resources cs6).1.map Prod.fst = [1, 2, 0] ∧
    (registrationOrder cs6).reverse.filter (cleanableB cs6) = [2, 1, 0] ∧
    (shutdown_resources cs6).1.map Prod.fst ≠
      (registrationOrder cs6).reverse.filter (cleanableB cs6) := by
  exact ⟨by decide, by decide, by decide⟩

/-- C6 (amended, proved): the shutdown entry points attempt the cleanup of
every registration record with a cleanup callback and a realized cached
instance exactly once, iterating interfaces in reverse of their
first-registration order and, within an interface, the named variants in
reverse insertion order before the default (not the strict reverse of global
registration order); `async_shutdown_resources` invokes every such cleanup,
`shutdown_resources` invokes the synchronous ones (awaitable ones are skipped
and counted as failures); no failure aborts the iteration - which records are
attempted does not depend on which cleanups raise - and the call raises a
single aggregated `DiCallableError` containing every collected failure string
as a substring only when failures exist, otherwise it returns normally. -/
theorem C6_shutdown_amended :
    (∀ s : ContainerState, shutdownTargets s = amendedShutdownOrder s) ∧
    (∀ s : ContainerState,
      (async_shutdown_resources s).1.map Prod.fst =
        (shutdownTargets s).filter (cleanableB s) ∧
      (shutdown_resources s).1.map Prod.fst =
        (shutdownTargets s).filter (syncCleanableB s)) ∧
    (∀ s : ContainerState, (regIds s).Nodup →
      ((async_shutdown_resources s).1.map Prod.fst).Nodup ∧
      ((shutdown_resources s).1.map Prod.fst).Nodup ∧
      (∀ i : Nat, i ∈ (async_shutdown_resources s).1.map Prod.fst ↔
        i ∈ regIds s ∧ cleanableB s i = true)) ∧
    (∀ s : ContainerState,
      ((shutdown_resources s).2.1 = Except.ok () ↔ syncErrs s = []) ∧
      ((async_shutdown_resources s).2.1 = Except.ok () ↔ asyncErrs s = []) ∧
      (syncErrs s ≠ [] → (shutdown_resources s).2.1 =
        Except.error (DiErr.callableError (_construct_shutdown_resource_err_msg (syncErrs s)))) ∧
      (asyncErrs s ≠ [] → (async_shutdown_resources s).2.1 =
        Except.error (DiErr.callableError (_construct_shutdown_resource_err_msg (asyncErrs s)))) ∧
      (∀ e ∈ syncErrs s, strContains (_construct_shutdown_resource_err_msg (syncErrs s)) e) ∧
      (∀ e ∈ asyncErrs s, strContains (_construct_shutdown_resource_err_msg (asyncErrs s)) e)) := by
  have hmapAsync : ∀ s : ContainerState,
      (async_shutdown_resources s).1.map Prod.fst =
        (shutdownTargets s).filter (cleanableB s) := by
    intro s
    rw [async_shutdown_resources_eq]
    rw [show asyncInvokePick s = fun t =>
        if cleanableB s t then some (t, heapInst s t) else none from
      funext (asyncInvokePick_eq s)]
    exact filterMap_pick_map_fst (shutdownTargets s)
  have hmapSync : ∀ s : ContainerState,
      (shutdown_resources s).1.map Prod.fst =
        (shutdownTargets s).filter (syncCleanableB s) := by
    intro s
    rw [shutdown_resources_eq]
    rw [show syncInvokePick s = fun t =>
        if syncCleanableB s t then some (t, heapInst s t) else none from
      funext (syncInvokePick_eq s)]
    exact filterMap_pick_map_fst (shutdownTargets s)
  refine ⟨shutdownTargets_eq_amended, fun s => ⟨hmapAsync s, hmapSync s⟩, ?_, ?_⟩
  · intro s hnd
    have htargets : (shutdownTargets s).Nodup :=
      ((shutdownTargets_perm_regIds s).nodup_iff).mpr hnd
    refine ⟨?_, ?_, ?_⟩
    · rw [hmapAsync s]; exact htargets.filter _
    · rw [hmapSync s]; exact htargets.filter _
    · intro i
      rw [hmapAsync s, List.mem_filter]
      exact and_congr_left (fun _ => (shutdownTargets_perm_regIds s).mem_iff)
  · intro s
    refine ⟨?_, ?_, ?_, ?_, fun e he => aggMsg_contains he, fun e he => aggMsg_contains he⟩
    · rw [shutdown_resources_eq]
      by_cases he : syncErrs s = []
      · simp [he]
      · simp [he, List.isEmpty_iff]
    · rw [async_shutdown_resources_eq]
      by_cases he : asyncErrs s = []
      · simp [he]
      · simp [he, List.isEmpty_iff]
    · intro hne
      rw [shutdown_resources_eq]
      simp [List.isEmpty_iff, hne]
    · intro hne
      rw [async_shutdown_resources_eq]
      simp [List.isEmpty_iff, hne]

/-- Two interleaved-free registrations whose cleanups both raise (as in the
aggregated-failure test scenario of the spec). -/
def cs6w : ContainerState :=
  realizeInstance (realizeInstance
    (register (register emptyContainer
      "Database" noArgCtor none (some ⟨false, some "db boom"⟩) Lifetime.singleton false)
      "Cache" noArgCtor none (some ⟨false, some "cache boom"⟩) Lifetime.singleton false)
    0 (Value.obj 0)) 1 (Value.obj 1)

/-- Witness for C6 at a concrete container with two failing cleanups: the
hypotheses hold, both cleanups are attempted, and the single aggregated error
contains both failure strings. -/
theorem C6_shutdown_amended_witness :
    (regIds cs6w).Nodup ∧
    ((shutdown_resources cs6w).1.map Prod.fst).Nodup ∧
    syncErrs cs6w ≠ [] ∧
    (shutdown_resources cs6w).2.1 =
      Except.error (DiErr.callableError (_construct_shutdown_resource_err_msg (syncErrs cs6w))) ∧
    cleanupFailMsg (Value.obj 1) "cache boom" ∈ syncErrs cs6w ∧
    cleanupFailMsg (Value.obj 0) "db boom" ∈ syncErrs cs6w ∧
    strContains (_construct_shutdown_resource_err_msg (syncErrs cs6w))
      (cleanupFailMsg (Value.obj 1) "cache boom") ∧
    strContains (_construct_shutdown_resource_err_msg (syncErrs cs6w))
      (cleanupFailMsg (Value.obj 0) "db boom") := by
  refine ⟨by decide, (C6_shutdown_amended.2.2.1 cs6w (by decide)).2.1, by decide,
    (C6_shutdown_amended.2.2.2 cs6w).2.2.1 (by decide), by decide, by decide,
    (C6_shutdown_amended.2.2.2 cs6w).2.2.2.2.1 _ (by decide),
    (C6_shutdown_amended.2.2.2 cs6w).2.2.2.2.1 _ (by decide)⟩

/-! ## C7 -/

/-- A default singleton `Config` registration with a cleanup, whose instance
slot has been realized (as the singleton strategy does on first construction). -/
def cs7 : ContainerState :=
  realizeInstance
    (register emptyContainer "Config" noArgCtor none (some ⟨false, none⟩)
      Lifetime.singleton false)
    0 (Value.obj 7)

/-- C7 counterexample: teardown invokes the cleanup on the cached instance
(`(0, obj 7)` is the performed invocation) and returns normally, but the
record's cached-instance slot still holds `obj 7` afterwards - the slot is
never cleared, contradicting the claim's "and clears the slot". -/
theorem C7_counterexample_slot_not_cleared :
    (shutdown_resources cs7).1 = [(0, Value.obj 7)] ∧
    (shutdown_resources cs7).2.1 = Except.ok () ∧
    ((shutdown_resources cs7).2.2.heap[0]?).map RegistrationMetadata.inst =
      some (Value.obj 7) := by
  exact ⟨rfl, rfl, rfl⟩

/-- C7 (amended, proved): under singleton lifetime the strategy populates the
record's cached-instance slot on the first construction; under scoped lifetime
the instance is cached in the strategy's scope map keyed by the record's
`resolved_params` identity, and the record itself (in particular its slot) is
left untouched; teardown invokes the cleanup callback on every record with a
cleanup and a realized cached instance, passing the cached instance, but
leaves the slot populated - the container state after teardown is unchanged. -/
theorem C7_slot_lifecycle_amended :
    (∀ (σ : Type) (md : RegistrationMetadata) (resolver : σ → σ × Value) (st : σ),
      md.inst = Value.pyNone →
        (SingletonStrategy.resolve md resolver st).1.inst = (resolver st).2 ∧
        (SingletonStrategy.resolve md resolver st).2.2 = (resolver st).2) ∧
    (∀ (σ : Type) (sc : List (Nat × Value)) (md : RegistrationMetadata)
        (resolver : σ → σ × Value) (st : σ),
      (ScopedStrategy.resolve sc md resolver st).2.1 = md ∧
      (sc.lookup md.rpId = none →
        (ScopedStrategy.resolve sc md resolver st).1 = sc ++ [(md.rpId, (resolver st).2)])) ∧
    (∀ (s : ContainerState) (i : Nat) (md : RegistrationMetadata),
      s.heap[i]? = some md → i ∈ shutdownTargets s → cleanableB s i = true →
        (i, md.inst) ∈ (async_shutdown_resources s).1 ∧
        (async_shutdown_resources s).2.2.heap[i]? = some md) := by
  refine ⟨?_, ?_, ?_⟩
  · intro σ md resolver st h
    simp [SingletonStrategy.resolve, h]
  · intro σ sc md resolver st
    constructor
    · unfold ScopedStrategy.resolve
      cases h : sc.lookup md.rpId <;> simp [h]
    · intro h
      simp [ScopedStrategy.resolve, h]
  · intro s i md hmd hmem hclean
    rw [async_shutdown_resources_eq]
    constructor
    · apply List.mem_filterMap.mpr
      refine ⟨i, hmem, ?_⟩
      rw [asyncInvokePick_eq, if_pos hclean]
      simp [heapInst, hmd]
    · exact hmd

/-- Witness for C7: a counter-state resolver populating the slot with `obj 3`,
an empty scope map caching under the record's `rpId`, and the concrete
container `cs7` whose realized record is cleaned on teardown yet keeps its
slot. -/
theorem C7_slot_lifecycle_amended_witness :
    ((⟨Lifetime.singleton, noArgCtor, none, Value.pyNone, false, 0⟩ :
        RegistrationMetadata).inst = Value.pyNone ∧
      (SingletonStrategy.resolve
        (⟨Lifetime.singleton, noArgCtor, none, Value.pyNone, false, 0⟩ :
          RegistrationMetadata)
        (fun k : Nat => (k + 1, Value.obj 3)) 0).1.inst = Value.obj 3) ∧
    (([] : List (Nat × Value)).lookup 0 = none ∧
      (ScopedStrategy.resolve ([] : List (Nat × Value))
        (⟨Lifetime.scoped, noArgCtor, none, Value.pyNone, false, 0⟩ :
          RegistrationMetadata)
        (fun k : Nat => (k + 1, Value.obj 4)) 0).1 = [(0, Value.obj 4)]) ∧
    (cs7.heap[0]? = some
        ⟨Lifetime.singleton, noArgCtor, some ⟨false, none⟩, Value.obj 7, false, 0⟩ ∧
      cleanableB cs7 0 = true ∧
      (0, Value.obj 7) ∈ (async_shutdown_resources cs7).1 ∧
      (async_shutdown_resources cs7).2.2.heap[0]? = some
        ⟨Lifetime.singleton, noArgCtor, some ⟨false, none⟩, Value.obj 7, false, 0⟩) := by
  refine ⟨⟨rfl, ?_⟩, ⟨rfl, ?_⟩, ⟨rfl, rfl, ?_, ?_⟩⟩
  · exact (C7_slot_lifecycle_amended.1 Nat _ (fun k => (k + 1, Value.obj 3)) 0 rfl).1
  · exact (C7_slot_lifecycle_amended.2.1 Nat [] _ (fun k => (k + 1, Value.obj 4)) 0).2 rfl
  · exact (C7_slot_lifecycle_amended.2.2 cs7 0 _ rfl (by decide) rfl).1
  · exact (C7_slot_lifecycle_amended.2.2 cs7 0 _ rfl (by decide) rfl).2

/-! ## C8 -/

/-- A registration with an awaitable cleanup and a realized instance. -/
def cs8 : ContainerState :=
  realizeInstance
    (register emptyContainer "APIClient" noArgCtor none (some ⟨true, none⟩)
      Lifetime.singleton false)
    0 (Value.obj 0)

/-- C8 counterexample: the synchronous shutdown against an awaitable cleanup
does raise a `DiCallableError` without invoking the cleanup, but its message
(the aggregated skip message) never names the asynchronous entry point - it
does not even contain the string `"async"` - so it does not direct the caller
to `async_shutdown_resources`. -/
theorem C8_counterexample_no_redirect :
    (shutdown_resources cs8).1 = [] ∧
    (shutdown_resources cs8).2.1 = Except.error (DiErr.callableError
      (_construct_shutdown_resource_err_msg [awaitableSkipMsg (Value.obj 0)])) ∧
    ¬ strContains (_construct_shutdown_resource_err_msg [awaitableSkipMsg (Value.obj 0)])
      "async" := by
  refine ⟨rfl, rfl, ?_⟩
  intro h
  have hB := strContains_containsB h
  rw [show containsB (_construct_shutdown_resource_err_msg
    [awaitableSkipMsg (Value.obj 0)]).data "async".data = false from by decide] at hB
  exact Bool.false_ne_true hB

/-- C8 (amended, proved): `shutdown_resources` on a record with an awaitable
cleanup and a realized instance does not invoke that cleanup and fails with a
typed `DiCallableError` (raised after all records have been attempted) whose
aggregated message contains the skip notice for that record - a notice that
reports the cleanup cannot be called with `shutdown_resources` but does not
name the asynchronous entry point; conversely `async_shutdown_resources`
invokes synchronous cleanups transparently, and when no attempted cleanup
raises it reports no error at all. -/
theorem C8_sync_async_shutdown_amended :
    (∀ (s : ContainerState) (i : Nat) (md : RegistrationMetadata) (c : Cleanup),
      s.heap[i]? = some md → i ∈ shutdownTargets s → md.cleanup = some c →
      c.isAsync = true → md.inst ≠ Value.pyNone →
        i ∉ (shutdown_resources s).1.map Prod.fst ∧
        (shutdown_resources s).2.1 =
          Except.error (DiErr.callableError (_construct_shutdown_resource_err_msg (syncErrs s))) ∧
        strContains (_construct_shutdown_resource_err_msg (syncErrs s))
          (awaitableSkipMsg md.inst)) ∧
    (∀ (s : ContainerState) (i : Nat) (md : RegistrationMetadata) (c : Cleanup),
      s.heap[i]? = some md → i ∈ shutdownTargets s → md.cleanup = some c →
      c.isAsync = false → md.inst ≠ Value.pyNone →
        (i, md.inst) ∈ (async_shutdown_resources s).1) ∧
    (∀ s : ContainerState, (∀ j ∈ shutdownTargets s, asyncErrPick s j = none) →
      (async_shutdown_resources s).2.1 = Except.ok ()) := by
  refine ⟨?_, ?_, ?_⟩
  · intro s i md c hmd hmem hc hA hi
    have hskip : awaitableSkipMsg md.inst ∈ syncErrs s := by
      apply List.mem_filterMap.mpr
      refine ⟨i, hmem, ?_⟩
      simp [syncErrPick, hmd, hc, hi, hA]
    have hne : syncErrs s ≠ [] := by
      intro hnil
      rw [hnil] at hskip
      simp at hskip
    refine ⟨?_, ?_, aggMsg_contains hskip⟩
    · rw [shutdown_resources_eq]
      simp only []
      rw [show syncInvokePick s = fun t =>
          if syncCleanableB s t then some (t, heapInst s t) else none from
        funext (syncInvokePick_eq s), filterMap_pick_map_fst]
      intro hmemf
      have := (List.mem_filter.mp hmemf).2
      rw [syncCleanableB, hmd] at this
      simp [hi, hc, hA] at this
    · rw [shutdown_resources_eq]
      simp [List.isEmpty_iff, hne]
  · intro s i md c hmd hmem hc hA hi
    rw [async_shutdown_resources_eq]
    apply List.mem_filterMap.mpr
    refine ⟨i, hmem, ?_⟩
    simp [asyncInvokePick, hmd, hc, hi]
  · intro s hnone
    rw [async_shutdown_resources_eq]
    have : asyncErrs s = [] := by
      unfold asyncErrs
      exact List.filterMap_eq_nil_iff.mpr hnone
    simp [this]

/-- Witness for C8: the awaitable-cleanup container `cs8` for the synchronous
direction, and a synchronous-cleanup container (`cs7`) for the asynchronous
direction. -/
theorem C8_sync_async_shutdown_amended_witness :
    (cs8.heap[0]? = some
        ⟨Lifetime.singleton, noArgCtor, some ⟨true, none⟩, Value.obj 0, false, 0⟩ ∧
      (0 : Nat) ∈ shutdownTargets cs8 ∧
      (0 : Nat) ∉ (shutdown_resources cs8).1.map Prod.fst ∧
      strContains (_construct_shutdown_resource_err_msg (syncErrs cs8))
        (awaitableSkipMsg (Value.obj 0))) ∧
    ((0, Value.obj 7) ∈ (async_shutdown_resources cs7).1 ∧
      (∀ j ∈ shutdownTargets cs7, asyncErrPick cs7 j = none) ∧
      (async_shutdown_resources cs7).2.1 = Except.ok ()) := by
  refine ⟨⟨rfl, by decide, ?_, ?_⟩, ⟨?_, by decide, ?_⟩⟩
  · exact (C8_sync_async_shutdown_amended.1 cs8 0 _ _ rfl (by decide) rfl rfl
      (by decide)).1
  · exact (C8_sync_async_shutdown_amended.1 cs8 0 _ _ rfl (by decide) rfl rfl
      (by decide)).2.2
  · exact C8_sync_async_shutdown_amended.2.1 cs7 0 _ _ rfl (by decide) rfl rfl
      (by decide)
  · exact C8_sync_async_shutdown_amended.2.2 cs7 (by decide)

/-! ## C10 -/

/-- C10 (confirmed): `SingletonStrategy.resolve` guards its cache with
`metadata.instance is None`, so a factory that returns `None` is re-invoked on
every resolve of the record - two resolves call it twice (the counter rises by
two) and the slot stays unconstructed - whereas a factory returning a non-null
value is invoked once and its result is cached and reused. -/
theorem C10_singleton_none_not_cached :
    (∀ (md : RegistrationMetadata) (n : Nat), md.inst = Value.pyNone →
      (SingletonStrategy.resolve
          (SingletonStrategy.resolve md (fun k : Nat => (k + 1, Value.pyNone)) n).1
          (fun k : Nat => (k + 1, Value.pyNone))
          (SingletonStrategy.resolve md (fun k : Nat => (k + 1, Value.pyNone)) n).2.1).2.1
        = n + 2 ∧
      (SingletonStrategy.resolve
          (SingletonStrategy.resolve md (fun k : Nat => (k + 1, Value.pyNone)) n).1
          (fun k : Nat => (k + 1, Value.pyNone))
          (SingletonStrategy.resolve md (fun k : Nat => (k + 1, Value.pyNone)) n).2.1).1.inst
        = Value.pyNone) ∧
    (∀ (md : RegistrationMetadata) (n : Nat) (v : Value),
      md.inst = Value.pyNone → v ≠ Value.pyNone →
      (SingletonStrategy.resolve
          (SingletonStrategy.resolve md (fun k : Nat => (k + 1, v)) n).1
          (fun k : Nat => (k + 1, v))
          (SingletonStrategy.resolve md (fun k : Nat => (k + 1, v)) n).2.1).2.1
        = n + 1 ∧
      (SingletonStrategy.resolve
          (SingletonStrategy.resolve md (fun k : Nat => (k + 1, v)) n).1
          (fun k : Nat => (k + 1, v))
          (SingletonStrategy.resolve md (fun k : Nat => (k + 1, v)) n).2.1).2.2
        = v) := by
  constructor
  · intro md n h
    simp [SingletonStrategy.resolve, h]
  · intro md n v h hv
    simp [SingletonStrategy.resolve, h, hv]

/-- Witness for C10 at a concrete record: a `None`-returning factory is called
twice by two resolves, a non-null factory once. -/
theorem C10_singleton_none_not_cached_witness :
    ((⟨Lifetime.singleton, noArgCtor, none, Value.pyNone, false, 0⟩ :
        RegistrationMetadata).inst = Value.pyNone ∧
      (SingletonStrategy.resolve
          (SingletonStrategy.resolve
            (⟨Lifetime.singleton, noArgCtor, none, Value.pyNone, false, 0⟩ :
              RegistrationMetadata)
            (fun k : Nat => (k + 1, Value.pyNone)) 0).1
          (fun k : Nat => (k + 1, Value.pyNone))
          (SingletonStrategy.resolve
            (⟨Lifetime.singleton, noArgCtor, none, Value.pyNone, false, 0⟩ :
              RegistrationMetadata)
            (fun k : Nat => (k + 1, Value.pyNone)) 0).2.1).2.1 = 2) ∧
    (Value.obj 5 ≠ Value.pyNone ∧
      (SingletonStrategy.resolve
          (SingletonStrategy.resolve
            (⟨Lifetime.singleton, noArgCtor, none, Value.pyNone, false, 0⟩ :
              RegistrationMetadata)
            (fun k : Nat => (k + 1, Value.obj 5)) 0).1
          (fun k : Nat => (k + 1, Value.obj 5))
          (SingletonStrategy.resolve
            (⟨Lifetime.singleton, noArgCtor, none, Value.pyNone, false, 0⟩ :
              RegistrationMetadata)
            (fun k : Nat => (k + 1, Value.obj 5)) 0).2.1).2.1 = 1) := by
  refine ⟨⟨rfl, ?_⟩, ⟨by decide, ?_⟩⟩
  · exact (C10_singleton_none_not_cached.1
      ⟨Lifetime.singleton, noArgCtor, none, Value.pyNone, false, 0⟩ 0 rfl).1
  · exact (C10_singleton_none_not_cached.2
      ⟨Lifetime.singleton, noArgCtor, none, Value.pyNone, false, 0⟩ 0 (Value.obj 5)
      rfl (by decide)).1

end KoNexus
